import Mathlib

/-!
Verification of the `ProfileManager` class of RobloxAccountManagerLinux.

The repository ships two versions of the manager:
* `src/classes/account_manager.py`  — embedded below in namespace `V1`;
* `src/src/classes/account_manager.py` — embedded below in namespace `V2`.

Methods whose bodies are line-identical in the two files are embedded once
in namespace `Common`.

Python dictionaries are modelled as association lists `List (String × α)`
(insertion-ordered, unique keys in practice); `d[k] = v` is `aset`,
`del d[k]` is `adel`, `k in d` is `(alookup d k).isSome`.

Effects are made explicit: the profiles JSON file is a field of the manager
state holding the parsed JSON document (Python's `json.dump`/`json.load`
pair is modelled at the level of the JSON syntax tree), and filesystem /
subprocess / HTTP calls are oracles passed in as arguments, one outcome per
call site, mirroring the single-shot try/except structure of the source.
-/

namespace RAMgr

/-! ### Association lists (Python dict model) -/

def alookup {α : Type} (ps : List (String × α)) (k : String) : Option α :=
  match ps with
  | [] => none
  | kv :: rest => if kv.1 = k then some kv.2 else alookup rest k

def aset {α : Type} (ps : List (String × α)) (k : String) (v : α) : List (String × α) :=
  match ps with
  | [] => [(k, v)]
  | kv :: rest => if kv.1 = k then (k, v) :: rest else kv :: aset rest k v

def adel {α : Type} (ps : List (String × α)) (k : String) : List (String × α) :=
  match ps with
  | [] => []
  | kv :: rest => if kv.1 = k then adel rest k else kv :: adel rest k

/-! ### Python string helpers -/

/-- Whitespace characters removed by Python's `str.strip()`. -/
def pyIsSpace (c : Char) : Bool :=
  c = ' ' || c = '\t' || c = '\n' || c = '\r' || c = '\x0b' || c = '\x0c'

def pyStripChars (cs : List Char) : List Char :=
  ((cs.dropWhile pyIsSpace).reverse.dropWhile pyIsSpace).reverse

/-- Python `s.strip()`. -/
def pyStrip (s : String) : String := String.mk (pyStripChars s.data)

/-- Test whether `needle` occurs at the start of `hay`. -/
def beginsWith : List Char → List Char → Bool
  | _, [] => true
  | [], _ :: _ => false
  | c :: cs, d :: ds => c = d && beginsWith cs ds

def containsChars (hay needle : List Char) : Bool :=
  match hay with
  | [] => beginsWith [] needle
  | c :: rest => beginsWith (c :: rest) needle || containsChars rest needle

/-- Python `sub in s` (substring containment). -/
def containsSub (s sub : String) : Bool := containsChars s.data sub.data

/-- Truthiness of an optional string (`None` and `''` are falsy). -/
def pyTruthyS (o : Option String) : Bool :=
  match o with
  | none => false
  | some s => !(s = "")

/-- Python `re.search(lit + r'(\d+)', hay)`, returning group 1: the maximal
digit run right after the first occurrence of `lit` that is followed by at
least one digit. -/
def searchLitDigitsChars (lit hay : List Char) : Option (List Char) :=
  match hay with
  | [] => none
  | _ :: rest =>
    if beginsWith hay lit then
      let ds := (hay.drop lit.length).takeWhile Char.isDigit
      if ds = [] then searchLitDigitsChars lit rest else some ds
    else searchLitDigitsChars lit rest

def searchLitDigits (lit hay : String) : Option String :=
  (searchLitDigitsChars lit.data hay.data).map String.mk

/-! ### Path model (Python `pathlib`, restricted to `/`-separated paths) -/

def splitOnCharAux (sep : Char) : List Char → List Char → List (List Char)
  | [], acc => [acc.reverse]
  | c :: rest, acc =>
    if c = sep then acc.reverse :: splitOnCharAux sep rest []
    else splitOnCharAux sep rest (c :: acc)

/-- Split a character list on a separator character. -/
def splitOnChar (sep : Char) (cs : List Char) : List (List Char) :=
  splitOnCharAux sep cs []

/-- The nonempty, non-`"."` components of a `/`-separated path
(`pathlib` drops empty and `"."` segments). -/
def splitPath (s : String) : List String :=
  ((splitOnChar '/' s.data).map String.mk).filter (fun c => ¬ c = "" ∧ ¬ c = ".")

def isAbsPath (s : String) : Bool :=
  match s.data with
  | [] => false
  | c :: _ => c = '/'

def joinChars : List String → List Char
  | [] => []
  | [c] => c.data
  | c :: rest => c.data ++ '/' :: joinChars rest

def joinComponents (abs : Bool) (cs : List String) : String :=
  String.mk ((if abs then ['/'] else []) ++ joinChars cs)

/-- Python `str(Path(base) / child)` for a relative `child`. -/
def pathJoin (base child : String) : String :=
  joinComponents (isAbsPath base) (splitPath base ++ splitPath child)

/-- Python `str(Path(s).parent)`. -/
def pathParent (s : String) : String :=
  match (splitPath s).dropLast, isAbsPath s with
  | [], true => "/"
  | [], false => "."
  | ds, abs => joinComponents abs ds

/-! ### JSON documents and profile records -/

inductive Json where
  | null : Json
  | bool (b : Bool) : Json
  | num (n : Int) : Json
  | str (s : String) : Json
  | arr (xs : List Json) : Json
  | obj (kvs : List (String × Json)) : Json

def Json.isObj : Json → Bool
  | Json.obj _ => true
  | _ => false

/-- A profile record as created by the manager: the three-field dict
`{'name': …, 'path': …, 'note': …}`. -/
structure Profile where
  name : String
  path : String
  note : String
deriving Repr, DecidableEq

def encodeProfile (p : Profile) : Json :=
  Json.obj [("name", Json.str p.name), ("path", Json.str p.path), ("note", Json.str p.note)]

/-- The document `json.dump(self.profiles, f)` writes to `profiles.json`. -/
def encodeProfiles (ps : List (String × Profile)) : Json :=
  Json.obj (ps.map (fun kv => (kv.1, encodeProfile kv.2)))

def decodeProfile (j : Json) : Option Profile :=
  match j with
  | Json.obj [("name", Json.str n), ("path", Json.str p), ("note", Json.str t)] =>
    some { name := n, path := p, note := t }
  | _ => none

def decodeProfiles : List (String × Json) → Option (List (String × Profile))
  | [] => some []
  | (k, j) :: rest =>
    match decodeProfile j, decodeProfiles rest with
    | some p, some ps => some ((k, p) :: ps)
    | _, _ => none

/-- Method `ProfileManager.load_profiles` (identical in both files): if the file is
absent return `{}`; parse it; return the result if it is a dict, else `{}`.
A parse error is also modelled by `none` (the `except` branch returns `{}`). -/
def load_profiles (file : Option Json) : List (String × Json) :=
  match file with
  | none => []
  | some (Json.obj kvs) => kvs
  | some _ => []

/-! ### Manager state -/

/-- The mutable state of a `ProfileManager` that the verified methods touch:
the in-memory `self.profiles` dict, the persisted content of
`profiles.json` (`none` = file absent), `self.base_directory`, and the
`self.running_processes` dict of the `src/src` version (keyed by profile
name, valued by the spawned process). -/
structure MState where
  profiles : List (String × Profile)
  profilesFile : Option Json
  base_directory : String
  running : List (String × Nat)

/-- Effect of `self.profiles = ps; self.save_profiles()`. -/
def saveTo (st : MState) (ps : List (String × Profile)) : MState :=
  { st with profiles := ps, profilesFile := some (encodeProfiles ps) }

/-! ### Effect oracles -/

/-- Outcome of `Path.mkdir(parents=True, exist_ok=False)`. -/
inductive MkdirOutcome where
  | ok : MkdirOutcome
  | fileExists : MkdirOutcome
  | err (msg : String) : MkdirOutcome

/-- Outcome of the `old_path.exists()` check plus `old_path.rename(new_path)`
inside `rename_profile`'s `try` block. -/
inductive RenameFsOutcome where
  | ok : RenameFsOutcome
  | err (msg : String) : RenameFsOutcome

/-- Outcome of `subprocess.Popen(argv, …)`: a process (identified by a pid)
or a raised exception. -/
inductive PopenResult where
  | ok (pid : Nat) : PopenResult
  | fail (msg : String) : PopenResult

/-- Oracles consulted by the launch methods: `os.path.exists` and
`subprocess.Popen` as a function of the argv. -/
structure LaunchEnv where
  dirExists : String → Bool
  popen : List String → PopenResult

/-! ### Methods identical in both source files -/

namespace Common

/-- Method `ProfileManager.add_profile` (line-identical in `src/classes` and
`src/src/classes`). The `mkdir` outcome is an oracle argument. Returns the
new state with the `(success, message)` pair. -/
def add_profile (mk : MkdirOutcome) (st : MState) (profile_name : String) :
    MState × Bool × String :=
  if st.base_directory = "" then (st, false, "Base directory not set")
  else if (alookup st.profiles profile_name).isSome then
    (st, false, "Profile \x27" ++ profile_name ++ "\x27 already exists")
  else
    let profile_path := pathJoin st.base_directory profile_name
    match mk with
    | MkdirOutcome.ok =>
      let ps := aset st.profiles profile_name
        { name := profile_name, path := profile_path, note := "" }
      (saveTo st ps, true, profile_name)
    | MkdirOutcome.fileExists =>
      (st, false, "Directory for profile \x27" ++ profile_name ++ "\x27 already exists")
    | MkdirOutcome.err m => (st, false, "Failed to create profile: " ++ m)

/-- Method `ProfileManager.rename_profile` (line-identical in both files). The
filesystem rename is an oracle argument. -/
def rename_profile (fs : RenameFsOutcome) (st : MState) (old_name new_name : String) :
    MState × Bool × String :=
  match alookup st.profiles old_name with
  | none => (st, false, "Profile \x27" ++ old_name ++ "\x27 not found")
  | some oldEntry =>
    if (alookup st.profiles new_name).isSome then
      (st, false, "Profile \x27" ++ new_name ++ "\x27 already exists")
    else if pyStrip new_name = "" then (st, false, "Profile name cannot be empty")
    else
      let new_path := pathJoin (pathParent oldEntry.path) new_name
      match fs with
      | RenameFsOutcome.err m => (st, false, "Failed to rename profile: " ++ m)
      | RenameFsOutcome.ok =>
        let ps := adel (aset st.profiles new_name
          { name := new_name, path := new_path, note := oldEntry.note }) old_name
        (saveTo st ps, true, new_name)

/-- Method `ProfileManager.set_profile_note` (line-identical in both files). -/
def set_profile_note (st : MState) (profile_name note : String) : MState × Bool :=
  match alookup st.profiles profile_name with
  | none => (st, false)
  | some e =>
    let ps := aset st.profiles profile_name { e with note := note }
    (saveTo st ps, true)

/-- Method `ProfileManager.delete_profile` of `src/src/classes` (the `src/classes`
version differs only in not attempting to remove the profile directory; the
effect on the profiles mapping and file is the same in both). The directory
removal is caught-and-ignored in the source, so the oracle outcome does not
influence the result. -/
def delete_profile (rm : RenameFsOutcome) (st : MState) (profile_name : String) :
    MState × Bool :=
  match alookup st.profiles profile_name with
  | none => (st, false)
  | some _ =>
    match rm with
    | _ =>
      let ps := adel st.profiles profile_name
      (saveTo st ps, true)

end Common

/-! ### Launch argv construction -/

/-- Argv of `["env", f"HOME={profile_path}", "flatpak", "run", "org.vinegarhq.Sober"]`. -/
def soberArgvHome (profile_path : String) : List String :=
  ["env", "HOME=" ++ profile_path, "flatpak", "run", "org.vinegarhq.Sober"]

/-- Argv of `["flatpak", "run", "org.vinegarhq.Sober"]` (the `src/classes`
"Main Profile" special case). -/
def soberArgvPlain : List String := ["flatpak", "run", "org.vinegarhq.Sober"]

/-- Result of a launch method: the state after the call, the returned
boolean, the argv actually handed to `Popen` (when the call was reached),
and the spawned process when `Popen` succeeded. -/
structure LaunchResult where
  st : MState
  ok : Bool
  argvUsed : Option (List String)
  spawnedPid : Option Nat

namespace V1

/-- Method `ProfileManager.launch_sober` of `src/classes/account_manager.py`
(lines 165-202): "Main Profile" is launched without the `HOME` override;
every other profile gets `env HOME=<path>`. This version does not track
running processes, so the state is returned unchanged. -/
def launch_sober (env : LaunchEnv) (st : MState) (profile_name : String) : LaunchResult :=
  match alookup st.profiles profile_name with
  | none => ⟨st, false, none, none⟩
  | some prof =>
    if ¬ env.dirExists prof.path then ⟨st, false, none, none⟩
    else
      let argv := if profile_name = "Main Profile" then soberArgvPlain
                  else soberArgvHome prof.path
      match env.popen argv with
      | PopenResult.ok pid => ⟨st, true, some argv, some pid⟩
      | PopenResult.fail _ => ⟨st, false, some argv, none⟩

/-- URI construction of `launch_sober_with_place_id` in
`src/classes/account_manager.py` (lines 260-263): the third parameter is
used verbatim as the link code. -/
def build_place_uri (place_id : String) (private_server_code : Option String) : String :=
  if pyTruthyS private_server_code then
    "roblox://placeId=" ++ place_id ++ "&linkCode=" ++ private_server_code.getD ""
  else
    "roblox://placeId=" ++ place_id

/-- Tail of `ProfileManager.__init__` in `src/classes/account_manager.py`
(lines 30-37): when the loaded profiles dict is empty, create the
"Main Profile" entry pointing at `Path.home()` and save. -/
def main_profile_init (home : String) (st : MState) : MState :=
  if st.profiles = [] then
    saveTo st [("Main Profile", { name := "Main Profile", path := home, note := "" })]
  else st

end V1

namespace V2

/-- Method `ProfileManager.launch_sober` of `src/src/classes/account_manager.py`
(lines 168-197): every profile, "Main Profile" included, is launched with
`env HOME=<path>`; on success the process is recorded in
`running_processes`. -/
def launch_sober (env : LaunchEnv) (st : MState) (profile_name : String) : LaunchResult :=
  match alookup st.profiles profile_name with
  | none => ⟨st, false, none, none⟩
  | some prof =>
    if ¬ env.dirExists prof.path then ⟨st, false, none, none⟩
    else
      let argv := soberArgvHome prof.path
      match env.popen argv with
      | PopenResult.ok pid =>
        ⟨{ st with running := aset st.running profile_name pid }, true, some argv, some pid⟩
      | PopenResult.fail _ => ⟨st, false, some argv, none⟩

/-- The final place-id check and URI construction of
`launch_sober_with_place_id` in `src/src/classes/account_manager.py`
(lines 504-511). -/
def finalize_uri (place_id : String) (private_server_code : Option String) : Option String :=
  if place_id = "" ∨ pyStrip place_id = "" then none
  else if pyTruthyS private_server_code then
    some ("roblox://placeId=" ++ place_id ++ "&linkCode=" ++ private_server_code.getD "")
  else
    some ("roblox://experiences/start?placeId=" ++ place_id)

/-- Input parsing plus URI construction of `launch_sober_with_place_id` in
`src/src/classes/account_manager.py` (lines 476-511): the third parameter
is a raw user input that may be a full game URL (place id and
`privateServerLinkCode` are extracted with regexes and cross-checked
against `place_id`) or a bare code (stripped). `none` models the error
returns (`return False`) of the parsing phase. -/
def resolve_uri (place_id : String) (private_server_input : Option String) : Option String :=
  let inp := private_server_input.getD ""
  if ¬ inp = "" then
    if containsSub inp "roblox.com/games/" || containsSub inp "privateServerLinkCode=" then
      let url_place_id := searchLitDigits "games/" inp
      let code := searchLitDigits "privateServerLinkCode=" inp
      if place_id = "" ∨ pyStrip place_id = "" then
        match url_place_id with
        | some upid => finalize_uri upid code
        | none => none
      else
        match url_place_id with
        | some upid => if ¬ place_id = upid then none else finalize_uri place_id code
        | none => finalize_uri place_id code
    else
      finalize_uri place_id (some (pyStrip inp))
  else
    finalize_uri place_id none

/-- Method `ProfileManager.launch_sober_with_place_id` of
`src/src/classes/account_manager.py` (lines 464-530). -/
def launch_sober_with_place_id (env : LaunchEnv) (st : MState)
    (profile_name place_id : String) (private_server_input : Option String) : LaunchResult :=
  match alookup st.profiles profile_name with
  | none => ⟨st, false, none, none⟩
  | some prof =>
    if ¬ env.dirExists prof.path then ⟨st, false, none, none⟩
    else
      match resolve_uri place_id private_server_input with
      | none => ⟨st, false, none, none⟩
      | some uri =>
        let argv := soberArgvHome prof.path ++ [uri]
        match env.popen argv with
        | PopenResult.ok pid =>
          ⟨{ st with running := aset st.running profile_name pid }, true, some argv, some pid⟩
        | PopenResult.fail _ => ⟨st, false, some argv, none⟩

/-! #### `launch_sober_join_user` (lines 321-435 of `src/src/classes`) -/

/-- The three HTTP request sites of `launch_sober_join_user`, in source
order: the username-resolution POST, the CSRF-token POST, and the
presence POST. -/
inductive Req3 where
  | users : Req3
  | csrf : Req3
  | presence : Req3
deriving DecidableEq, Repr

/-- Response of `POST users.roblox.com/v1/usernames/users`: status code and
the `data` array (each record's `id`). -/
structure UserResp where
  status : Nat
  data : List Int

/-- One record of the presence response's `userPresences` array. -/
structure PresenceRec where
  userPresenceType : Int
  placeId : Option Int
  gameId : Option String

/-- Response of `POST presence.roblox.com/v1/presence/users`. -/
structure PresenceResp where
  status : Nat
  userPresences : List PresenceRec

/-- Oracles consulted by `launch_sober_join_user`: filesystem checks, the
cookie file content, one outcome per HTTP request site (`none` models a
raised `requests.RequestException`), and `Popen`. The cookie read itself is
modelled as succeeding with `cookieContent`. -/
structure JoinEnv where
  dirExists : Bool
  cookieFileExists : Bool
  cookieContent : String
  userResp : Option UserResp
  csrfToken : Option (Option String)
  presenceResp : Option PresenceResp
  popen : List String → PopenResult

/-- Result of `launch_sober_join_user`: state, the `(success, message)`
pair, the spawned process when `Popen` succeeded, and the trace of HTTP
request sites actually reached, in order. -/
structure JoinResult where
  st : MState
  ok : Bool
  msg : String
  spawnedPid : Option Nat
  trace : List Req3

def netErrMsg : String := "Network error - check your connection"

/-- The private-server-code preprocessing of `launch_sober_join_user`
(lines 339-346): extract `privateServerLinkCode=<digits>` from the input if
present, else use the stripped input; `None`/empty input gives no code. -/
def parse_private_code (private_server_input : Option String) : Option String :=
  match private_server_input with
  | none => none
  | some inp =>
    if inp = "" then none
    else
      match searchLitDigits "privateServerLinkCode=" inp with
      | some ds => some ds
      | none => some (pyStrip inp)

/-- The URI construction of `launch_sober_join_user` (lines 409-416): with
a truthy private-server code build the `linkCode` URI; otherwise require a
truthy `gameId` and build the `gameInstanceId` URI (`none` models the
"Could not get game instance ID" error return). -/
def join_uri (private_server_code : Option String) (place_id : Int)
    (game_id : Option String) : Option String :=
  if pyTruthyS private_server_code then
    some ("roblox://placeId=" ++ toString place_id ++ "&linkCode="
      ++ private_server_code.getD "")
  else
    match game_id with
    | none => none
    | some j =>
      if j = "" then none
      else
        some ("roblox://experiences/start?placeId=" ++ toString place_id
          ++ "&gameInstanceId=" ++ j)

/-- Method `ProfileManager.launch_sober_join_user` of
`src/src/classes/account_manager.py` (lines 321-435). Straight-line
translation: each early `return` of the source is one branch; the
`except requests.RequestException` branch is the `none` case of each HTTP
oracle; the generic `except Exception` branch is reached by the `Popen`
failure (its message is `str(e)`). -/
def launch_sober_join_user (env : JoinEnv) (st : MState)
    (profile_name username : String) (private_server_input : Option String) : JoinResult :=
  match alookup st.profiles profile_name with
  | none => ⟨st, false, "Profile not found", none, []⟩
  | some prof =>
    if ¬ env.dirExists then ⟨st, false, "Profile directory not found", none, []⟩
    else if ¬ env.cookieFileExists then ⟨st, false, "Profile not logged in", none, []⟩
    else
      if ¬ containsSub env.cookieContent ".ROBLOSECURITY=" then
        ⟨st, false, "Invalid cookie format", none, []⟩
      else
        match env.userResp with
        | none => ⟨st, false, netErrMsg, none, [Req3.users]⟩
        | some ur =>
          if ¬ ur.status = 200 then ⟨st, false, "Failed to find user", none, [Req3.users]⟩
          else
            match ur.data with
            | [] => ⟨st, false, "User \x27" ++ username ++ "\x27 not found", none, [Req3.users]⟩
            | _ :: _ =>
              match env.csrfToken with
              | none => ⟨st, false, netErrMsg, none, [Req3.users, Req3.csrf]⟩
              | some _tok =>
                match env.presenceResp with
                | none => ⟨st, false, netErrMsg, none, [Req3.users, Req3.csrf, Req3.presence]⟩
                | some pr =>
                  let tr := [Req3.users, Req3.csrf, Req3.presence]
                  if ¬ pr.status = 200 then ⟨st, false, "Failed to get user presence", none, tr⟩
                  else
                    match pr.userPresences with
                    | [] => ⟨st, false, "User presence not found", none, tr⟩
                    | p :: _ =>
                      if ¬ p.userPresenceType = 2 then
                        ⟨st, false, username ++ " is not currently in a game", none, tr⟩
                      else if p.placeId = none ∨ p.placeId = some 0 then
                        ⟨st, false, "Could not get game information", none, tr⟩
                      else
                        match join_uri (parse_private_code private_server_input)
                            (p.placeId.getD 0) p.gameId with
                        | none =>
                          ⟨st, false,
                            "Could not get game instance ID. Try providing a private server code if this is a VIP server.",
                            none, tr⟩
                        | some uri =>
                          match env.popen (soberArgvHome prof.path ++ [uri]) with
                          | PopenResult.fail m => ⟨st, false, m, none, tr⟩
                          | PopenResult.ok procId =>
                            ⟨{ st with running := aset st.running profile_name procId },
                              true, "Joining " ++ username, some procId, tr⟩

end V2

/-- The `name`-field/key coherence invariant of the profiles dict: every
entry's `'name'` field equals its key. -/
def NamesOk (ps : List (String × Profile)) : Prop :=
  ∀ k e, alookup ps k = some e → e.name = k

/-! ## Theorems -/

/-! ### Association-list lemmas -/

theorem alookup_aset {α : Type} (ps : List (String × α)) (k j : String) (v : α) :
    alookup (aset ps k v) j = if j = k then some v else alookup ps j := by
  induction ps with
  | nil =>
    by_cases h : j = k
    · subst h; simp [aset, alookup]
    · simp [aset, alookup, h, show ¬ k = j from fun hh => h hh.symm]
  | cons kv rest ih =>
    obtain ⟨k1, v1⟩ := kv
    by_cases h1 : k1 = k
    · subst h1
      by_cases h2 : j = k1
      · subst h2; simp [aset, alookup]
      · simp [aset, alookup, h2, show ¬ k1 = j from fun hh => h2 hh.symm]
    · by_cases h2 : k1 = j
      · subst h2
        simp [aset, alookup, h1, show ¬ k1 = k from h1]
      · by_cases h3 : j = k
        · subst h3; simp [aset, alookup, h1, h2, ih]
        · simp [aset, alookup, h1, h2, h3, ih]

theorem alookup_adel {α : Type} (ps : List (String × α)) (k j : String) :
    alookup (adel ps k) j = if j = k then none else alookup ps j := by
  induction ps with
  | nil =>
    simp only [adel, alookup]
    split <;> rfl
  | cons kv rest ih =>
    obtain ⟨k1, v1⟩ := kv
    by_cases h1 : k1 = k
    · subst h1
      by_cases h2 : j = k1
      · subst h2; simp [adel, alookup, ih]
      · simp [adel, alookup, ih, h2, show ¬ k1 = j from fun hh => h2 hh.symm]
    · by_cases h2 : k1 = j
      · subst h2
        simp [adel, alookup, h1, show ¬ k1 = k from h1]
      · by_cases h3 : j = k
        · subst h3; simp [adel, alookup, h1, h2, ih]
        · simp [adel, alookup, h1, h2, h3, ih]

theorem namesOk_aset (ps : List (String × Profile)) (k : String) (v : Profile)
    (h : NamesOk ps) (hv : v.name = k) : NamesOk (aset ps k v) := by
  intro k' e he
  rw [alookup_aset] at he
  by_cases hk : k' = k
  · rw [if_pos hk] at he
    injection he with he
    subst he
    exact hk ▸ hv
  · rw [if_neg hk] at he
    exact h k' e he

theorem namesOk_adel (ps : List (String × Profile)) (k : String)
    (h : NamesOk ps) : NamesOk (adel ps k) := by
  intro k' e he
  rw [alookup_adel] at he
  by_cases hk : k' = k
  · rw [if_pos hk] at he; exact Option.noConfusion he
  · rw [if_neg hk] at he; exact h k' e he

/-! ### C3 -/

/-- C3: for a `profile_name` not in the profiles mapping, with the base
directory set and the directory creation succeeding, `add_profile` records
an entry mapping the name to `<base_directory>/<profile_name>` with an
empty note, persists the mapping to the profiles file, and returns
`(True, profile_name)`. -/
theorem c3_add_profile_creates_entry (st : MState) (pn : String)
    (hbase : ¬ st.base_directory = "")
    (hnew : alookup st.profiles pn = none) :
    Common.add_profile MkdirOutcome.ok st pn =
      (saveTo st (aset st.profiles pn
        { name := pn, path := pathJoin st.base_directory pn, note := "" }), true, pn) ∧
    alookup (Common.add_profile MkdirOutcome.ok st pn).1.profiles pn =
      some { name := pn, path := pathJoin st.base_directory pn, note := "" } ∧
    (Common.add_profile MkdirOutcome.ok st pn).1.profilesFile =
      some (encodeProfiles (Common.add_profile MkdirOutcome.ok st pn).1.profiles) := by
  have h1 : Common.add_profile MkdirOutcome.ok st pn =
      (saveTo st (aset st.profiles pn
        { name := pn, path := pathJoin st.base_directory pn, note := "" }), true, pn) := by
    simp [Common.add_profile, hbase, hnew]
  refine ⟨h1, ?_, ?_⟩
  · rw [h1]
    simp [saveTo, alookup_aset]
  · rw [h1]
    simp [saveTo]

theorem c3_add_profile_creates_entry_witness :
    Common.add_profile MkdirOutcome.ok ⟨[], none, "/base", []⟩ "p1" =
      (saveTo ⟨[], none, "/base", []⟩
        (aset [] "p1" { name := "p1", path := pathJoin "/base" "p1", note := "" }), true, "p1") :=
  (c3_add_profile_creates_entry ⟨[], none, "/base", []⟩ "p1" (by decide) rfl).1

/-! ### C4 -/

/-- C4: for a `profile_name` already in the profiles mapping, `add_profile`
returns `(False, "Profile '<name>' already exists")` and returns the state
untouched — in particular the profiles mapping and the persisted profiles
file are unchanged. (The hypothesis that the base directory is nonempty
always holds: `load_base_directory` falls back to the nonempty default
`"ProfileManagerData/Profiles"`.) -/
theorem c4_add_profile_duplicate_noop (mk : MkdirOutcome) (st : MState) (pn : String)
    (e : Profile)
    (hbase : ¬ st.base_directory = "")
    (hdup : alookup st.profiles pn = some e) :
    Common.add_profile mk st pn =
      (st, false, "Profile \x27" ++ pn ++ "\x27 already exists") := by
  simp [Common.add_profile, hbase, hdup]

theorem c4_add_profile_duplicate_noop_witness :
    Common.add_profile MkdirOutcome.ok
      ⟨[("p1", { name := "p1", path := "/base/p1", note := "" })], none, "/base", []⟩ "p1" =
      (⟨[("p1", { name := "p1", path := "/base/p1", note := "" })], none, "/base", []⟩,
        false, "Profile \x27p1\x27 already exists") :=
  c4_add_profile_duplicate_noop MkdirOutcome.ok _ "p1"
    { name := "p1", path := "/base/p1", note := "" } (by decide) rfl

/-! ### C8 -/

/-- C8: a successful `rename_profile old new` produces an entry under `new`
carrying the old entry's note and the path `parent(old path)/new`, removes
the entry under `old`, and leaves every other key's entry unchanged. -/
theorem c8_rename_profile_frame (fs : RenameFsOutcome) (st : MState)
    (old_name new_name : String) (oldE : Profile)
    (hold : alookup st.profiles old_name = some oldE)
    (hsucc : (Common.rename_profile fs st old_name new_name).2.1 = true) :
    alookup (Common.rename_profile fs st old_name new_name).1.profiles new_name =
      some { name := new_name, path := pathJoin (pathParent oldE.path) new_name,
             note := oldE.note } ∧
    alookup (Common.rename_profile fs st old_name new_name).1.profiles old_name = none ∧
    ∀ k, ¬ k = old_name → ¬ k = new_name →
      alookup (Common.rename_profile fs st old_name new_name).1.profiles k =
        alookup st.profiles k := by
  cases hnew : alookup st.profiles new_name with
  | some e2 =>
    exact absurd hsucc (by simp [Common.rename_profile, hold, hnew])
  | none =>
    by_cases hempty : pyStrip new_name = ""
    · exact absurd hsucc (by simp [Common.rename_profile, hold, hnew, hempty])
    · cases fs with
      | err m =>
        exact absurd hsucc (by simp [Common.rename_profile, hold, hnew, hempty])
      | ok =>
        have hne : ¬ new_name = old_name := by
          intro hh
          rw [hh, hold] at hnew
          exact Option.noConfusion hnew
        have hres : (Common.rename_profile RenameFsOutcome.ok st old_name new_name).1.profiles =
            adel (aset st.profiles new_name
              { name := new_name, path := pathJoin (pathParent oldE.path) new_name,
                note := oldE.note }) old_name := by
          simp [Common.rename_profile, hold, hnew, hempty, saveTo]
        refine ⟨?_, ?_, ?_⟩
        · rw [hres, alookup_adel, if_neg hne, alookup_aset, if_pos rfl]
        · rw [hres, alookup_adel, if_pos rfl]
        · intro k hko hkn
          rw [hres, alookup_adel, if_neg hko, alookup_aset, if_neg hkn]

theorem c8_rename_profile_frame_witness :
    alookup (Common.rename_profile RenameFsOutcome.ok
      ⟨[("a", { name := "a", path := "/base/a", note := "n1" }),
        ("c", { name := "c", path := "/base/c", note := "n3" })], none, "/base", []⟩
      "a" "b").1.profiles "b" =
      some { name := "b", path := pathJoin (pathParent "/base/a") "b", note := "n1" } ∧
    alookup (Common.rename_profile RenameFsOutcome.ok
      ⟨[("a", { name := "a", path := "/base/a", note := "n1" }),
        ("c", { name := "c", path := "/base/c", note := "n3" })], none, "/base", []⟩
      "a" "b").1.profiles "a" = none :=
  by
    have h := c8_rename_profile_frame RenameFsOutcome.ok
      ⟨[("a", { name := "a", path := "/base/a", note := "n1" }),
        ("c", { name := "c", path := "/base/c", note := "n3" })], none, "/base", []⟩
      "a" "b" { name := "a", path := "/base/a", note := "n1" } rfl (by decide)
    exact ⟨h.1, h.2.1⟩

/-! ### C9 -/

/-- C9: renaming a profile to its own current name fails with the
"already exists" message and returns the state untouched, for every
filesystem outcome — the duplicate-name check runs before the emptiness
check and before any filesystem operation. -/
theorem c9_rename_profile_self (fs : RenameFsOutcome) (st : MState) (p : String)
    (e : Profile) (h : alookup st.profiles p = some e) :
    Common.rename_profile fs st p p =
      (st, false, "Profile \x27" ++ p ++ "\x27 already exists") := by
  simp [Common.rename_profile, h]

theorem c9_rename_profile_self_witness :
    Common.rename_profile (RenameFsOutcome.err "disk")
      ⟨[("a", { name := "a", path := "/base/a", note := "" })], none, "/base", []⟩ "a" "a" =
      (⟨[("a", { name := "a", path := "/base/a", note := "" })], none, "/base", []⟩,
        false, "Profile \x27a\x27 already exists") :=
  c9_rename_profile_self (RenameFsOutcome.err "disk") _ "a"
    { name := "a", path := "/base/a", note := "" } rfl

/-! ### C10 -/

/-- C10: every state-modifying manager operation — `add_profile`,
`rename_profile`, `delete_profile`, `set_profile_note`, and the
"Main Profile" creation in the `src/classes` constructor — preserves the
invariant that each profile entry's `'name'` field equals its key. -/
theorem c10_name_key_invariant :
    (∀ mk st pn, NamesOk st.profiles →
      NamesOk (Common.add_profile mk st pn).1.profiles) ∧
    (∀ fs st a b, NamesOk st.profiles →
      NamesOk (Common.rename_profile fs st a b).1.profiles) ∧
    (∀ rm st pn, NamesOk st.profiles →
      NamesOk (Common.delete_profile rm st pn).1.profiles) ∧
    (∀ st pn nt, NamesOk st.profiles →
      NamesOk (Common.set_profile_note st pn nt).1.profiles) ∧
    (∀ home st, NamesOk st.profiles →
      NamesOk (V1.main_profile_init home st).profiles) := by
  refine ⟨?_, ?_, ?_, ?_, ?_⟩
  · intro mk st pn h
    unfold Common.add_profile
    split
    · exact h
    · split
      · exact h
      · cases mk with
        | ok => exact namesOk_aset _ _ _ h rfl
        | fileExists => exact h
        | err m => exact h
  · intro fs st a b h
    unfold Common.rename_profile
    split
    · exact h
    · split
      · exact h
      · split
        · exact h
        · cases fs with
          | err m => exact h
          | ok => exact namesOk_adel _ _ (namesOk_aset _ _ _ h rfl)
  · intro rm st pn h
    unfold Common.delete_profile
    split
    · exact h
    · exact namesOk_adel _ _ h
  · intro st pn nt h
    unfold Common.set_profile_note
    split
    · exact h
    · next e heq => exact namesOk_aset _ _ _ h (h pn e heq)
  · intro home st h
    unfold V1.main_profile_init
    split
    · intro k e he
      simp only [saveTo, alookup] at he
      by_cases hk : "Main Profile" = k
      · rw [if_pos hk] at he
        injection he with he
        subst he
        exact hk
      · rw [if_neg hk] at he
        exact Option.noConfusion he
    · exact h

theorem c10_name_key_invariant_witness :
    NamesOk (Common.add_profile MkdirOutcome.ok ⟨[], none, "/b", []⟩ "p").1.profiles ∧
    NamesOk (V1.main_profile_init "/home/u" ⟨[], none, "/b", []⟩).profiles :=
  ⟨c10_name_key_invariant.1 MkdirOutcome.ok ⟨[], none, "/b", []⟩ "p"
      (fun k e he => by simp [alookup] at he),
    c10_name_key_invariant.2.2.2.2 "/home/u" ⟨[], none, "/b", []⟩
      (fun k e he => by simp [alookup] at he)⟩

/-! ### C1 -/

/-- C1 counterexample: in the `src/classes` version, launching
"Main Profile" (present in the mapping, directory existing, spawn
succeeding) returns True but the spawned command line is the plain
`flatpak run org.vinegarhq.Sober` — it does not contain
`HOME=<profile path>`, refuting the claim that every launch command line
carries the `HOME` override. -/
theorem c1_home_override_counterexample :
    (V1.launch_sober ⟨fun _ => true, fun _ => PopenResult.ok 1⟩
      ⟨[("Main Profile", { name := "Main Profile", path := "/home/user", note := "" })],
        none, "/b", []⟩ "Main Profile").ok = true ∧
    (V1.launch_sober ⟨fun _ => true, fun _ => PopenResult.ok 1⟩
      ⟨[("Main Profile", { name := "Main Profile", path := "/home/user", note := "" })],
        none, "/b", []⟩ "Main Profile").argvUsed = some soberArgvPlain ∧
    ¬ ("HOME=" ++ "/home/user") ∈ soberArgvPlain := by decide

/-- C1 amended: for every profile present in the mapping whose directory
exists, when the spawn call succeeds `launch_sober` returns True; in the
`src/src` version the spawned command line always contains
`HOME=<profile path>`, while in the `src/classes` version it does for every
profile except "Main Profile", which is launched without the override. -/
theorem c1_launch_home_override (env : LaunchEnv) (st : MState) (pn : String)
    (prof : Profile)
    (hlook : alookup st.profiles pn = some prof)
    (hdir : env.dirExists prof.path = true)
    (hpopen : ∀ a, ∃ pid, env.popen a = PopenResult.ok pid) :
    ((V2.launch_sober env st pn).ok = true ∧
      (V2.launch_sober env st pn).argvUsed = some (soberArgvHome prof.path) ∧
      ("HOME=" ++ prof.path) ∈ soberArgvHome prof.path) ∧
    ((V1.launch_sober env st pn).ok = true ∧
      (V1.launch_sober env st pn).argvUsed =
        some (if pn = "Main Profile" then soberArgvPlain else soberArgvHome prof.path) ∧
      (¬ pn = "Main Profile" → ("HOME=" ++ prof.path) ∈ soberArgvHome prof.path)) := by
  obtain ⟨p2, hp2⟩ := hpopen (soberArgvHome prof.path)
  constructor
  · refine ⟨?_, ?_, ?_⟩
    · simp [V2.launch_sober, hlook, hdir, hp2]
    · simp [V2.launch_sober, hlook, hdir, hp2]
    · simp [soberArgvHome]
  · by_cases hmain : pn = "Main Profile"
    · subst hmain
      obtain ⟨p1, hp1⟩ := hpopen soberArgvPlain
      refine ⟨?_, ?_, ?_⟩
      · simp [V1.launch_sober, hlook, hdir, hp1]
      · simp [V1.launch_sober, hlook, hdir, hp1]
      · intro hc; exact absurd rfl hc
    · refine ⟨?_, ?_, ?_⟩
      · simp [V1.launch_sober, hlook, hdir, hmain, hp2]
      · simp [V1.launch_sober, hlook, hdir, hmain, hp2]
      · intro _; simp [soberArgvHome]

theorem c1_launch_home_override_witness :
    ((V2.launch_sober ⟨fun _ => true, fun _ => PopenResult.ok 5⟩
        ⟨[("p", { name := "p", path := "/hp", note := "" })], none, "/b", []⟩ "p").ok = true ∧
      (V2.launch_sober ⟨fun _ => true, fun _ => PopenResult.ok 5⟩
        ⟨[("p", { name := "p", path := "/hp", note := "" })], none, "/b", []⟩ "p").argvUsed =
        some (soberArgvHome "/hp") ∧
      ("HOME=" ++ "/hp") ∈ soberArgvHome "/hp") ∧
    ((V1.launch_sober ⟨fun _ => true, fun _ => PopenResult.ok 5⟩
        ⟨[("p", { name := "p", path := "/hp", note := "" })], none, "/b", []⟩ "p").ok = true ∧
      (V1.launch_sober ⟨fun _ => true, fun _ => PopenResult.ok 5⟩
        ⟨[("p", { name := "p", path := "/hp", note := "" })], none, "/b", []⟩ "p").argvUsed =
        some (if "p" = "Main Profile" then soberArgvPlain else soberArgvHome "/hp") ∧
      (¬ "p" = "Main Profile" → ("HOME=" ++ "/hp") ∈ soberArgvHome "/hp")) :=
  c1_launch_home_override ⟨fun _ => true, fun _ => PopenResult.ok 5⟩
    ⟨[("p", { name := "p", path := "/hp", note := "" })], none, "/b", []⟩ "p"
    { name := "p", path := "/hp", note := "" } rfl rfl (fun _ => ⟨5, rfl⟩)

/-! ### C2 -/

/-- C2 counterexample: with no private-server input and place id "123",
the `src/classes` version builds `roblox://placeId=123` while the
`src/src` version builds `roblox://experiences/start?placeId=123` — the
"same plain-place URI in both versions" part of the claim is false. -/
theorem c2_uri_counterexample :
    V1.build_place_uri "123" none = "roblox://placeId=123" ∧
    V2.resolve_uri "123" none = some "roblox://experiences/start?placeId=123" ∧
    ¬ (("roblox://placeId=123" : String) = "roblox://experiences/start?placeId=123") := by
  decide

/-- C2 amended: with a plain private-server code (nonempty, equal to its
stripped form, containing neither URL marker) and a place id that is
nonempty after stripping, both versions build
`roblox://placeId=<place_id>&linkCode=<code>`; with no private-server
input, the `src/classes` version builds `roblox://placeId=<place_id>`
while the `src/src` version builds
`roblox://experiences/start?placeId=<place_id>`. -/
theorem c2_uri_agreement (place_id code : String)
    (hpid : ¬ pyStrip place_id = "")
    (hcode : ¬ code = "")
    (hstrip : pyStrip code = code)
    (hng : containsSub code "roblox.com/games/" = false)
    (hnp : containsSub code "privateServerLinkCode=" = false) :
    (V1.build_place_uri place_id (some code) =
        "roblox://placeId=" ++ place_id ++ "&linkCode=" ++ code ∧
      V2.resolve_uri place_id (some code) =
        some ("roblox://placeId=" ++ place_id ++ "&linkCode=" ++ code)) ∧
    (V1.build_place_uri place_id none = "roblox://placeId=" ++ place_id ∧
      V2.resolve_uri place_id none =
        some ("roblox://experiences/start?placeId=" ++ place_id)) := by
  have hpe : ¬ place_id = "" := fun h => hpid (by rw [h]; rfl)
  refine ⟨⟨?_, ?_⟩, ?_, ?_⟩
  · simp [V1.build_place_uri, pyTruthyS, hcode]
  · simp [V2.resolve_uri, hcode, hng, hnp, hstrip, V2.finalize_uri, hpe, hpid, pyTruthyS]
  · simp [V1.build_place_uri, pyTruthyS]
  · simp [V2.resolve_uri, V2.finalize_uri, hpe, hpid, pyTruthyS]

theorem c2_uri_agreement_witness :
    (V1.build_place_uri "123" (some "777") =
        "roblox://placeId=" ++ "123" ++ "&linkCode=" ++ "777" ∧
      V2.resolve_uri "123" (some "777") =
        some ("roblox://placeId=" ++ "123" ++ "&linkCode=" ++ "777")) ∧
    (V1.build_place_uri "123" none = "roblox://placeId=" ++ "123" ∧
      V2.resolve_uri "123" none =
        some ("roblox://experiences/start?placeId=" ++ "123")) :=
  c2_uri_agreement "123" "777" (by decide) (by decide) (by decide) (by decide) (by decide)

/-! ### C7 -/

theorem decodeProfiles_map_encode (ps : List (String × Profile)) :
    decodeProfiles (ps.map (fun kv => (kv.1, encodeProfile kv.2))) = some ps := by
  induction ps with
  | nil => rfl
  | cons kv rest ih =>
    obtain ⟨k, p⟩ := kv
    simp only [List.map_cons, decodeProfiles, ih]
    rfl

/-- C7: profile persistence round-trips. Loading the JSON document written
by `save_profiles` yields exactly the saved mapping (decoding the raw dict
entries recovers the typed profiles); loading an absent file yields the
empty mapping; loading a file whose content is not a JSON dict yields the
empty mapping. -/
theorem c7_profiles_roundtrip :
    (∀ ps, decodeProfiles (load_profiles (some (encodeProfiles ps))) = some ps) ∧
    load_profiles none = [] ∧
    (∀ j, j.isObj = false → load_profiles (some j) = []) := by
  refine ⟨?_, rfl, ?_⟩
  · intro ps
    exact decodeProfiles_map_encode ps
  · intro j hj
    cases j <;> first | rfl | simp [Json.isObj] at hj

theorem c7_profiles_roundtrip_witness :
    decodeProfiles (load_profiles (some (encodeProfiles
      [("a", { name := "a", path := "/x", note := "n" })]))) =
      some [("a", { name := "a", path := "/x", note := "n" })] ∧
    load_profiles (some Json.null) = [] :=
  ⟨c7_profiles_roundtrip.1 _, c7_profiles_roundtrip.2.2 Json.null rfl⟩

/-! ### C5 -/

/-- Exhaustive branch analysis of `launch_sober_join_user`: the profiles
mapping is never modified; the request trace is a prefix of
`[users, csrf, presence]`; a request exception at an issued request yields
the network-error failure; success records the spawned process under the
profile name, and failure leaves `running_processes` unchanged. -/
theorem join_user_master (env : V2.JoinEnv) (st : MState) (pn un : String)
    (psi : Option String) :
    (V2.launch_sober_join_user env st pn un psi).st.profiles = st.profiles ∧
    ((V2.launch_sober_join_user env st pn un psi).trace = [] ∨
      (V2.launch_sober_join_user env st pn un psi).trace = [V2.Req3.users] ∨
      (V2.launch_sober_join_user env st pn un psi).trace = [V2.Req3.users, V2.Req3.csrf] ∨
      (V2.launch_sober_join_user env st pn un psi).trace =
        [V2.Req3.users, V2.Req3.csrf, V2.Req3.presence]) ∧
    (env.userResp = none →
      V2.Req3.users ∈ (V2.launch_sober_join_user env st pn un psi).trace →
      (V2.launch_sober_join_user env st pn un psi).ok = false ∧
      (V2.launch_sober_join_user env st pn un psi).msg = V2.netErrMsg) ∧
    (env.csrfToken = none →
      V2.Req3.csrf ∈ (V2.launch_sober_join_user env st pn un psi).trace →
      (V2.launch_sober_join_user env st pn un psi).ok = false ∧
      (V2.launch_sober_join_user env st pn un psi).msg = V2.netErrMsg) ∧
    (env.presenceResp = none →
      V2.Req3.presence ∈ (V2.launch_sober_join_user env st pn un psi).trace →
      (V2.launch_sober_join_user env st pn un psi).ok = false ∧
      (V2.launch_sober_join_user env st pn un psi).msg = V2.netErrMsg) ∧
    ((V2.launch_sober_join_user env st pn un psi).ok = true →
      ∃ q, (V2.launch_sober_join_user env st pn un psi).spawnedPid = some q ∧
        alookup (V2.launch_sober_join_user env st pn un psi).st.running pn = some q) ∧
    ((V2.launch_sober_join_user env st pn un psi).ok = false →
      (V2.launch_sober_join_user env st pn un psi).st.running = st.running) := by
  cases halook : alookup st.profiles pn with
  | none => simp_all [V2.launch_sober_join_user]
  | some prof =>
    cases hdir : env.dirExists with
    | false => simp_all [V2.launch_sober_join_user]
    | true =>
      cases hcf : env.cookieFileExists with
      | false => simp_all [V2.launch_sober_join_user]
      | true =>
        cases hcc : containsSub env.cookieContent ".ROBLOSECURITY=" with
        | false => simp_all [V2.launch_sober_join_user]
        | true =>
          cases henvu : env.userResp with
          | none => simp_all [V2.launch_sober_join_user]
          | some ur =>
            by_cases hst : ur.status = 200
            · cases hdata : ur.data with
              | nil => simp_all [V2.launch_sober_join_user]
              | cons u us =>
                cases htok : env.csrfToken with
                | none => simp_all [V2.launch_sober_join_user]
                | some tok =>
                  cases hpres : env.presenceResp with
                  | none => simp_all [V2.launch_sober_join_user]
                  | some pr =>
                    by_cases hps : pr.status = 200
                    · cases hups : pr.userPresences with
                      | nil => simp_all [V2.launch_sober_join_user]
                      | cons p2 ps2 =>
                        by_cases hut : p2.userPresenceType = 2
                        · by_cases hplace : p2.placeId = none ∨ p2.placeId = some 0
                          · simp_all [V2.launch_sober_join_user]
                          · cases huri : V2.join_uri (V2.parse_private_code psi)
                                (p2.placeId.getD 0) p2.gameId with
                            | none => simp_all [V2.launch_sober_join_user]
                            | some uri =>
                              cases hpop : env.popen (soberArgvHome prof.path ++ [uri]) with
                              | ok q => simp_all [V2.launch_sober_join_user, alookup_aset]
                              | fail m => simp_all [V2.launch_sober_join_user]
                        · simp_all [V2.launch_sober_join_user]
                    · simp_all [V2.launch_sober_join_user]
            · simp_all [V2.launch_sober_join_user]

/-- C5: `launch_sober_join_user` issues each of its three HTTP requests at
most once per invocation, never modifies the profiles mapping, and when the
oracle for a request it actually issued raises a request exception it
returns `(False, "Network error - check your connection")`. -/
theorem c5_join_user_single_shot (env : V2.JoinEnv) (st : MState)
    (pn un : String) (psi : Option String) :
    (∀ t, (V2.launch_sober_join_user env st pn un psi).trace.count t ≤ 1) ∧
    (V2.launch_sober_join_user env st pn un psi).st.profiles = st.profiles ∧
    (env.userResp = none →
      V2.Req3.users ∈ (V2.launch_sober_join_user env st pn un psi).trace →
      (V2.launch_sober_join_user env st pn un psi).ok = false ∧
      (V2.launch_sober_join_user env st pn un psi).msg = V2.netErrMsg) ∧
    (env.csrfToken = none →
      V2.Req3.csrf ∈ (V2.launch_sober_join_user env st pn un psi).trace →
      (V2.launch_sober_join_user env st pn un psi).ok = false ∧
      (V2.launch_sober_join_user env st pn un psi).msg = V2.netErrMsg) ∧
    (env.presenceResp = none →
      V2.Req3.presence ∈ (V2.launch_sober_join_user env st pn un psi).trace →
      (V2.launch_sober_join_user env st pn un psi).ok = false ∧
      (V2.launch_sober_join_user env st pn un psi).msg = V2.netErrMsg) := by
  obtain ⟨hprof, hshape, hu, hc, hp, _, _⟩ := join_user_master env st pn un psi
  refine ⟨?_, hprof, hu, hc, hp⟩
  intro t
  rcases hshape with h | h | h | h <;> rw [h] <;> cases t <;> decide

theorem c5_join_user_single_shot_witness :
    (V2.launch_sober_join_user
      ⟨true, true, ".ROBLOSECURITY=x", none, none, none, fun _ => PopenResult.ok 1⟩
      ⟨[("p", { name := "p", path := "/hp", note := "" })], none, "/b", []⟩
      "p" "u" none).ok = false ∧
    (V2.launch_sober_join_user
      ⟨true, true, ".ROBLOSECURITY=x", none, none, none, fun _ => PopenResult.ok 1⟩
      ⟨[("p", { name := "p", path := "/hp", note := "" })], none, "/b", []⟩
      "p" "u" none).msg = V2.netErrMsg :=
  (c5_join_user_single_shot
    ⟨true, true, ".ROBLOSECURITY=x", none, none, none, fun _ => PopenResult.ok 1⟩
    ⟨[("p", { name := "p", path := "/hp", note := "" })], none, "/b", []⟩
    "p" "u" none).2.2.1 rfl (by decide)

/-! ### C6 -/

/-- C6: every successful launch operation of the `src/src` manager
(`launch_sober`, `launch_sober_with_place_id`, `launch_sober_join_user`)
records the spawned process in `running_processes` under the launched
profile's name, and no failed launch adds an entry (the map is returned
unchanged). -/
theorem c6_running_processes_tracking :
    (∀ env st pn, ((V2.launch_sober env st pn).ok = true →
        ∃ q, (V2.launch_sober env st pn).spawnedPid = some q ∧
          alookup (V2.launch_sober env st pn).st.running pn = some q) ∧
      ((V2.launch_sober env st pn).ok = false →
        (V2.launch_sober env st pn).st.running = st.running)) ∧
    (∀ env st pn pid psi, ((V2.launch_sober_with_place_id env st pn pid psi).ok = true →
        ∃ q, (V2.launch_sober_with_place_id env st pn pid psi).spawnedPid = some q ∧
          alookup (V2.launch_sober_with_place_id env st pn pid psi).st.running pn = some q) ∧
      ((V2.launch_sober_with_place_id env st pn pid psi).ok = false →
        (V2.launch_sober_with_place_id env st pn pid psi).st.running = st.running)) ∧
    (∀ env st pn un psi, ((V2.launch_sober_join_user env st pn un psi).ok = true →
        ∃ q, (V2.launch_sober_join_user env st pn un psi).spawnedPid = some q ∧
          alookup (V2.launch_sober_join_user env st pn un psi).st.running pn = some q) ∧
      ((V2.launch_sober_join_user env st pn un psi).ok = false →
        (V2.launch_sober_join_user env st pn un psi).st.running = st.running)) := by
  refine ⟨?_, ?_, ?_⟩
  · intro env st pn
    cases halook : alookup st.profiles pn with
    | none => simp_all [V2.launch_sober]
    | some prof =>
      cases hdir : env.dirExists prof.path with
      | false => simp_all [V2.launch_sober]
      | true =>
        cases hpop : env.popen (soberArgvHome prof.path) with
        | ok q => simp_all [V2.launch_sober, alookup_aset]
        | fail m => simp_all [V2.launch_sober]
  · intro env st pn pid psi
    cases halook : alookup st.profiles pn with
    | none => simp_all [V2.launch_sober_with_place_id]
    | some prof =>
      cases hdir : env.dirExists prof.path with
      | false => simp_all [V2.launch_sober_with_place_id]
      | true =>
        cases huri : V2.resolve_uri pid psi with
        | none => simp_all [V2.launch_sober_with_place_id]
        | some uri =>
          cases hpop : env.popen (soberArgvHome prof.path ++ [uri]) with
          | ok q => simp_all [V2.launch_sober_with_place_id, alookup_aset]
          | fail m => simp_all [V2.launch_sober_with_place_id]
  · intro env st pn un psi
    exact ⟨(join_user_master env st pn un psi).2.2.2.2.2.1,
      (join_user_master env st pn un psi).2.2.2.2.2.2⟩

theorem c6_running_processes_tracking_witness :
    (∃ q, (V2.launch_sober ⟨fun _ => true, fun _ => PopenResult.ok 9⟩
        ⟨[("p", { name := "p", path := "/hp", note := "" })], none, "/b", []⟩ "p").spawnedPid =
          some q ∧
      alookup (V2.launch_sober ⟨fun _ => true, fun _ => PopenResult.ok 9⟩
        ⟨[("p", { name := "p", path := "/hp", note := "" })], none, "/b", []⟩
        "p").st.running "p" = some q) ∧
    (V2.launch_sober ⟨fun _ => true, fun _ => PopenResult.fail "boom"⟩
      ⟨[("p", { name := "p", path := "/hp", note := "" })], none, "/b", []⟩
      "p").st.running = [] :=
  ⟨(c6_running_processes_tracking.1 ⟨fun _ => true, fun _ => PopenResult.ok 9⟩
      ⟨[("p", { name := "p", path := "/hp", note := "" })], none, "/b", []⟩ "p").1 (by decide),
    (c6_running_processes_tracking.1 ⟨fun _ => true, fun _ => PopenResult.fail "boom"⟩
      ⟨[("p", { name := "p", path := "/hp", note := "" })], none, "/b", []⟩ "p").2 (by decide)⟩

end RAMgr
